import Mathlib

/-!
Shallow embedding of the credential / certificate model and the
authentication negotiation protocol declared in
`include/git2/transport.h` (libgit2 transport interface fragment).

The source fragment is a header: it fixes the data model (the
`git_credtype_t` bit values, the `git_cred` tagged union and its
per-variant payload structs, the `git_cert_hostkey` / `git_cert_x509`
certificate structs) and the documented contracts of the declared
functions (`git_cred_has_username`, the credential constructors, the
`git_cred_acquire_cb` result-code convention).  The bodies of the
negotiation loop, the certificate-validation gate and the constructors
are not part of the fragment; where a claim depends on them they are
modelled from the specification, and each such definition is marked
`Modelled from the spec:` in its doc comment.
-/

namespace GitTransport

/-- Bit `GIT_CERT_SSH_MD5 = (1 << 0)` of `git_cert_ssh_t`. -/
def GIT_CERT_SSH_MD5 : Nat := 1

/-- Bit `GIT_CERT_SSH_SHA1 = (1 << 1)` of `git_cert_ssh_t`. -/
def GIT_CERT_SSH_SHA1 : Nat := 2

/-- Bit `GIT_CERT_SSH_SHA256 = (1 << 2)` of `git_cert_ssh_t`. -/
def GIT_CERT_SSH_SHA256 : Nat := 4

/-- Bit `GIT_CERT_SSH_RAW = (1 << 3)` of `git_cert_ssh_t`. -/
def GIT_CERT_SSH_RAW : Nat := 8

/-- Embeds `git_cert_ssh_raw_type_t`: the type tag of the raw hostkey. -/
inductive RawType
  | unknown
  | rsa
  | dss
  | ecdsa256
  | ecdsa384
  | ecdsa521
  | ed25519
deriving DecidableEq, Repr

/-- Numeric values of `git_cert_ssh_raw_type_t` as declared in the header. -/
def RawType.toNat : RawType → Nat
  | .unknown => 0
  | .rsa => 1
  | .dss => 2
  | .ecdsa256 => 3
  | .ecdsa384 => 4
  | .ecdsa521 => 5
  | .ed25519 => 6

/-- Embeds `git_cert_hostkey`: hostkey information taken from libssh2.
`htype` embeds the C field `type` (a `git_cert_ssh_t` bitmask saying which
hash forms are populated); the three hash fields embed the fixed-size C
arrays `unsigned char hash_md5[16]`, `hash_sha1[20]`, `hash_sha256[32]`
(a fixed-size array of bytes is a list of the declared length);
`hostkey` and `hostkey_len` embed the raw-key pointer and length. -/
structure HostkeyCert where
  htype : Nat
  hash_md5 : { l : List Nat // l.length = 16 }
  hash_sha1 : { l : List Nat // l.length = 20 }
  hash_sha256 : { l : List Nat // l.length = 32 }
  raw_type : RawType
  hostkey : List Nat
  hostkey_len : Nat

/-- Embeds `git_cert_x509`: an opaque DER-encoded buffer and its length. -/
structure X509Cert where
  data : List Nat
  len : Nat

/-- The certificate tagged union: the header declares exactly the two
payload structs `git_cert_hostkey` and `git_cert_x509`, each embedding a
`git_cert parent` tag. -/
inductive Cert
  | hostkey (h : HostkeyCert)
  | x509 (x : X509Cert)

/-- Bit `GIT_CREDTYPE_USERPASS_PLAINTEXT = (1u << 0)`. -/
def GIT_CREDTYPE_USERPASS_PLAINTEXT : Nat := 1

/-- Bit `GIT_CREDTYPE_SSH_KEY = (1u << 1)`. -/
def GIT_CREDTYPE_SSH_KEY : Nat := 2

/-- Bit `GIT_CREDTYPE_SSH_CUSTOM = (1u << 2)`. -/
def GIT_CREDTYPE_SSH_CUSTOM : Nat := 4

/-- Bit `GIT_CREDTYPE_DEFAULT = (1u << 3)`. -/
def GIT_CREDTYPE_DEFAULT : Nat := 8

/-- Bit `GIT_CREDTYPE_SSH_INTERACTIVE = (1u << 4)`. -/
def GIT_CREDTYPE_SSH_INTERACTIVE : Nat := 16

/-- Bit `GIT_CREDTYPE_USERNAME = (1u << 5)`. -/
def GIT_CREDTYPE_USERNAME : Nat := 32

/-- Bit `GIT_CREDTYPE_SSH_MEMORY = (1u << 6)`. -/
def GIT_CREDTYPE_SSH_MEMORY : Nat := 64

/-- The credential tagged union `git_cred`: one constructor per payload
struct declared in the header.  `char *` string fields are embedded as
`Option String` (`none` is `NULL`); the username-only variant stores its
username as an inline array `char username[1]` in the same struct, so it
cannot be `NULL` and is embedded as a plain `String`.  Callback pointers
and opaque payload pointers are embedded as opaque numeric handles. -/
inductive Cred
  | userpassPlaintext (username password : Option String)
  | sshKey (username publickey privatekey passphrase : Option String)
  | sshCustom (username publickey : Option String) (publickey_len : Nat)
      (sign_cb payload : Nat)
  | defaultCred
  | sshInteractive (username : Option String) (prompt_cb payload : Nat)
  | usernameOnly (username : String)
  | sshMemory (username publickey privatekey passphrase : Option String)
deriving DecidableEq

/-- Index of a credential's variant among the seven variants declared in
`git_credtype_t`, in declaration order. -/
def tagIdx : Cred → Fin 7
  | .userpassPlaintext .. => 0
  | .sshKey .. => 1
  | .sshCustom .. => 2
  | .defaultCred => 3
  | .sshInteractive .. => 4
  | .usernameOnly .. => 5
  | .sshMemory .. => 6

/-- The `credtype` field of the `git_cred` base struct: each variant's
single capability bit as assigned by `git_credtype_t`. -/
def credtype : Cred → Nat
  | .userpassPlaintext .. => GIT_CREDTYPE_USERPASS_PLAINTEXT
  | .sshKey .. => GIT_CREDTYPE_SSH_KEY
  | .sshCustom .. => GIT_CREDTYPE_SSH_CUSTOM
  | .defaultCred => GIT_CREDTYPE_DEFAULT
  | .sshInteractive .. => GIT_CREDTYPE_SSH_INTERACTIVE
  | .usernameOnly .. => GIT_CREDTYPE_USERNAME
  | .sshMemory .. => GIT_CREDTYPE_SSH_MEMORY

/-- The username field carried by a credential, or `none` for the
default/negotiate variant, which has no username field at all. -/
def usernameOf : Cred → Option String
  | .userpassPlaintext u _ => u
  | .sshKey u _ _ _ => u
  | .sshCustom u _ _ _ _ => u
  | .defaultCred => none
  | .sshInteractive u _ _ => u
  | .usernameOnly u => some u
  | .sshMemory u _ _ _ => u

/-- Embeds `git_cred_has_username` by its documented contract in the
header (the body is outside this fragment): return 1 if the credential
object has a non-NULL username, 0 otherwise; the default/negotiate
variant carries no username field, hence 0. -/
def git_cred_has_username (c : Cred) : Int :=
  match usernameOf c with
  | some _ => 1
  | none => 0

/-- States the spec sentence for the username query, in the spec's own
words: the credential carries a non-empty username. -/
def carriesNonEmptyUsername (c : Cred) : Prop :=
  ∃ s, usernameOf c = some s ∧ s ≠ ""

instance (c : Cred) : Decidable (carriesNonEmptyUsername c) := by
  unfold carriesNonEmptyUsername
  cases h : usernameOf c with
  | none => exact .isFalse (by simp [h])
  | some s => exact decidable_of_iff (s ≠ "") (by simp [h])

/-- Modelled from the spec: a credential constructor "validates that
required strings are non-empty where semantically mandatory, duplicates
all owned inputs, and returns a new credential tagged with its variant";
"construction fails with an allocation error if duplication cannot be
performed".  The constructor bodies are not part of this header fragment.
`alloc` is the allocator oracle: `false` means duplication cannot be
performed.  The C result convention is kept: the `Int` is the returned
code, the `Option Cred` is the `out` parameter. -/
def ctorResult (alloc : Bool) (mandatoryPresent : Prop) [Decidable mandatoryPresent]
    (c : Cred) : Int × Option Cred :=
  if ¬ mandatoryPresent then (-1, none)
  else if ¬ alloc then (-1, none)
  else (0, some c)

/-- Modelled from the spec: `git_cred_userpass_plaintext_new` — "Create a
new plain-text username and password credential object.  The supplied
credential parameter will be internally duplicated." -/
def git_cred_userpass_plaintext_new (alloc : Bool) (username password : Option String) :
    Int × Option Cred :=
  ctorResult alloc (username.isSome ∧ password.isSome)
    (.userpassPlaintext username password)

/-- Modelled from the spec: `git_cred_ssh_key_new` — on-disk ssh key
credential; username and private-key path are the semantically mandatory
strings. -/
def git_cred_ssh_key_new (alloc : Bool) (username publickey privatekey passphrase : Option String) :
    Int × Option Cred :=
  ctorResult alloc (username.isSome ∧ privatekey.isSome)
    (.sshKey username publickey privatekey passphrase)

/-- Modelled from the spec: `git_cred_ssh_key_memory_new` — in-memory ssh
key credential; username and private-key bytes are mandatory. -/
def git_cred_ssh_key_memory_new (alloc : Bool)
    (username publickey privatekey passphrase : Option String) : Int × Option Cred :=
  ctorResult alloc (username.isSome ∧ privatekey.isSome)
    (.sshMemory username publickey privatekey passphrase)

/-- Modelled from the spec: `git_cred_ssh_interactive_new` — interactive
ssh credential; username is mandatory, the callback and payload are
opaque handles. -/
def git_cred_ssh_interactive_new (alloc : Bool) (username : Option String)
    (prompt_cb payload : Nat) : Int × Option Cred :=
  ctorResult alloc username.isSome
    (.sshInteractive username prompt_cb payload)

/-- Modelled from the spec: `git_cred_ssh_custom_new` — custom-sign ssh
credential; username and public-key bytes are mandatory. -/
def git_cred_ssh_custom_new (alloc : Bool) (username publickey : Option String)
    (publickey_len : Nat) (sign_cb payload : Nat) : Int × Option Cred :=
  ctorResult alloc (username.isSome ∧ publickey.isSome)
    (.sshCustom username publickey publickey_len sign_cb payload)

/-- Modelled from the spec: `git_cred_default_new` — the default/negotiate
credential carries no fields, so only allocation can fail. -/
def git_cred_default_new (alloc : Bool) : Int × Option Cred :=
  ctorResult alloc True .defaultCred

/-- Modelled from the spec: `git_cred_username_new` — username-only
credential; the username is mandatory and is stored inline in the
credential struct (`char username[1]`), hence the constructed variant
carries a plain (never NULL) string. -/
def git_cred_username_new (alloc : Bool) (username : Option String) : Int × Option Cred :=
  match username with
  | none => (-1, none)
  | some s => ctorResult alloc True (.usernameOnly s)

/-- Events observable during one connection attempt: an invocation of the
certificate validation gate, an invocation of the acquisition function
with the bitmask it was given, and a transmission of a credential to the
transport for an authentication attempt. -/
inductive Event
  | validate
  | acquireCall (mask : Nat)
  | authAttempt (c : Cred)
deriving DecidableEq

/-- Terminal states of the acquisition negotiation (spec §4.2 state
machine): authenticated, declined (positive acquisition result or empty
bitmask), failed (negative acquisition result), or contract violation
(credential variant outside the supplied bitmask). -/
inductive NegState
  | authenticated (c : Cred)
  | declined
  | failed (code : Int)
  | contractViolation
deriving DecidableEq

theorem credtype_pos (c : Cred) : 0 < credtype c := by
  cases c <;> simp [credtype, GIT_CREDTYPE_USERPASS_PLAINTEXT, GIT_CREDTYPE_SSH_KEY,
    GIT_CREDTYPE_SSH_CUSTOM, GIT_CREDTYPE_DEFAULT, GIT_CREDTYPE_SSH_INTERACTIVE,
    GIT_CREDTYPE_USERNAME, GIT_CREDTYPE_SSH_MEMORY]

/-- Modelled from the spec: the acquisition negotiation loop (§4.2).  One
round calls the acquisition function with the current bitmask; a negative
code aborts immediately (fatal), a positive code is declined ("stop
trying"), code 0 yields a credential which must have its variant bit
inside the bitmask (else contract violation); an in-mask credential is
handed to the transport for an authentication attempt, and on transport
rejection the transport narrows the bitmask by clearing the rejected
variant's bit and re-invokes acquisition.  An empty bitmask is a declined
outcome.  `acquire` models the `git_cred_acquire_cb` callback with the
url, username and payload fixed: it returns the C result code and the
`out` credential slot (meaningful only when the code is 0).  `auth`
models the transport's own authentication attempt.  The returned list is
the trace of observable events. -/
def negotiate (acquire : Nat → Int × Cred) (auth : Cred → Bool) (mask : Nat) :
    NegState × List Event :=
  if hm : mask = 0 then (.declined, [])
  else
    let r := acquire mask
    if r.1 < 0 then (.failed r.1, [.acquireCall mask])
    else if 0 < r.1 then (.declined, [.acquireCall mask])
    else if credtype r.2 &&& mask = credtype r.2 then
      if auth r.2 then (.authenticated r.2, [.acquireCall mask, .authAttempt r.2])
      else
        let rest := negotiate acquire auth (mask - credtype r.2)
        (rest.1, .acquireCall mask :: .authAttempt r.2 :: rest.2)
    else (.contractViolation, [.acquireCall mask])
termination_by mask
decreasing_by exact Nat.sub_lt (Nat.pos_of_ne_zero hm) (credtype_pos _)

/-- Decision of the caller's certificate-validation callback (spec §4.3:
"The caller's validation callback returns accept/reject/error"). -/
inductive CertDecision
  | accept
  | reject
  | error (code : Int)
deriving DecidableEq

/-- Outcome of one connection attempt. -/
inductive ConnResult
  | ok (c : Cred)
  | untrustedPeer
  | validatorError (code : Int)
  | authDeclined
  | authFailed (code : Int)
  | contractViolation
deriving DecidableEq

/-- Maps a terminal negotiation state to the connection outcome. -/
def connResultOf : NegState → ConnResult
  | .authenticated c => .ok c
  | .declined => .authDeclined
  | .failed code => .authFailed code
  | .contractViolation => .contractViolation

/-- Modelled from the spec: one connection attempt (§2 control flow and
§4.3).  After the transport handshake the certificate validation gate
runs once on the presented certificate; on reject the attempt fails
immediately with an untrusted-peer condition and the negotiation loop is
never entered; on a validator error the failure is fatal and
distinguished from reject; on accept control proceeds to the acquisition
negotiation loop.  The returned list is the trace of observable events of
the whole attempt. -/
def connect (cert : Cert) (validator : Cert → CertDecision)
    (acquire : Nat → Int × Cred) (auth : Cred → Bool) (mask : Nat) :
    ConnResult × List Event :=
  match validator cert with
  | .reject => (.untrustedPeer, [.validate])
  | .error code => (.validatorError code, [.validate])
  | .accept =>
    let r := negotiate acquire auth mask
    (connResultOf r.1, .validate :: r.2)

/-- Tests whether an event is an invocation of the validation gate. -/
def isValidate : Event → Bool
  | .validate => true
  | _ => false

/-- Tests whether an event is an invocation of the acquisition function. -/
def isAcquire : Event → Bool
  | .acquireCall _ => true
  | _ => false

/-- The bitmasks passed to the acquisition function, in call order. -/
def traceMasks (t : List Event) : List Nat :=
  t.filterMap fun e => match e with
    | .acquireCall m => some m
    | _ => none

/-- Number of set bits among the seven credential-type bit positions
(all bitmasks of the credential model live below `2 ^ 7 = 128`). -/
def popcount7 (n : Nat) : Nat :=
  ((List.range 7).filter fun k => n.testBit k).length

/-- Memory for the heap-level construction model: a store mapping
addresses of string buffers to their contents, and the next fresh
address; every address below `next` is allocated. -/
structure Mem where
  store : Nat → String
  next : Nat

/-- Overwrites one buffer of a store (models the caller mutating or
recycling a buffer after construction). -/
def updStore (s : Nat → String) (a : Nat) (v : String) : Nat → String :=
  fun x => if x = a then v else s x

/-- A constructed credential at the heap level: the variant tag, the
address of the credential struct's own allocation, and the addresses of
its owned string buffers, in constructor-argument order. -/
structure CredH where
  credtype : Nat
  base : Nat
  fields : List Nat

/-- The distinct heap blocks released by the credential's release
operation: the struct's own block plus every owned field buffer. -/
def freedBlocks (c : CredH) : Finset Nat :=
  insert c.base c.fields.toFinset

/-- Modelled from the spec: the common constructor shape at the heap
level — allocate the credential struct, then duplicate each
caller-supplied buffer into a fresh buffer owned by the credential
("credentials constructed from caller-supplied strings/bytes are
duplicated internally at construction time — the constructed credential
does not alias caller memory").  The struct block is allocated at
`m.next` and the i-th input is copied into the fresh buffer
`m.next + 1 + i`. -/
def mk_credH (tag : Nat) (m : Mem) (inputs : List Nat) : Mem × CredH :=
  (⟨fun x =>
      if h : m.next + 1 ≤ x ∧ x < m.next + 1 + inputs.length then
        m.store (inputs.get ⟨x - (m.next + 1), by omega⟩)
      else m.store x,
    m.next + 1 + inputs.length⟩,
   ⟨tag, m.next, List.range' (m.next + 1) inputs.length⟩)

/-- Modelled from the spec: heap-level `git_cred_userpass_plaintext_new`
on the success path — duplicates the username and password buffers. -/
def userpass_newH (m : Mem) (username password : Nat) : Mem × CredH :=
  mk_credH GIT_CREDTYPE_USERPASS_PLAINTEXT m [username, password]

/-- Modelled from the spec: heap-level `git_cred_ssh_key_new` on the
success path — duplicates username, both key paths and the passphrase. -/
def ssh_key_newH (m : Mem) (username publickey privatekey passphrase : Nat) : Mem × CredH :=
  mk_credH GIT_CREDTYPE_SSH_KEY m [username, publickey, privatekey, passphrase]

/-- Modelled from the spec: heap-level `git_cred_ssh_key_memory_new` on
the success path. -/
def ssh_key_memory_newH (m : Mem) (username publickey privatekey passphrase : Nat) :
    Mem × CredH :=
  mk_credH GIT_CREDTYPE_SSH_MEMORY m [username, publickey, privatekey, passphrase]

/-- Modelled from the spec: heap-level `git_cred_ssh_interactive_new` on
the success path — the only owned buffer is the username (callback and
payload pointers are borrowed, not owned). -/
def ssh_interactive_newH (m : Mem) (username : Nat) : Mem × CredH :=
  mk_credH GIT_CREDTYPE_SSH_INTERACTIVE m [username]

/-- Modelled from the spec: heap-level `git_cred_ssh_custom_new` on the
success path — duplicates the username and the public-key bytes. -/
def ssh_custom_newH (m : Mem) (username publickey : Nat) : Mem × CredH :=
  mk_credH GIT_CREDTYPE_SSH_CUSTOM m [username, publickey]

/-- Modelled from the spec: heap-level `git_cred_default_new` on the
success path — no owned buffers, only the struct allocation. -/
def default_newH (m : Mem) : Mem × CredH :=
  mk_credH GIT_CREDTYPE_DEFAULT m []

/-- Modelled from the spec: heap-level `git_cred_username_new` on the
success path.  Per the header, `git_cred_username` stores its username as
a trailing inline array `char username[1]` inside the struct itself, so
the constructor performs a single allocation holding both the struct and
the copied string: the username buffer IS the struct block. -/
def username_newH (m : Mem) (username : Nat) : Mem × CredH :=
  (⟨updStore m.store m.next (m.store username), m.next + 1⟩,
   ⟨GIT_CREDTYPE_USERNAME, m.next, [m.next]⟩)

theorem credtype_eq_pow (c : Cred) : credtype c = 2 ^ (tagIdx c).val := by
  cases c <;> rfl

theorem pow_inj_fin7 : ∀ a b : Fin 7, (2 : Nat) ^ a.val = 2 ^ b.val → a = b := by decide

/-- The bitmask representing a set of credential variants: the sum of the
variants' single-bit capability values. -/
def maskOf (S : Finset (Fin 7)) : Nat := S.sum fun k => 2 ^ k.val

set_option maxRecDepth 4096 in
theorem maskOf_lt : ∀ S : Finset (Fin 7), maskOf S < 128 := by decide

set_option maxRecDepth 4096 in
theorem maskOf_bits : ∀ S : Finset (Fin 7), ∀ k : Fin 7,
    ((2 : Nat) ^ k.val &&& maskOf S = 2 ^ k.val ↔ k ∈ S) := by decide

/-- C7: the credential model is a closed tagged union of exactly seven
variants, each assigned a distinct single-bit capability value, so that
any subset of variants is representable as a bitmask; exactly one variant
tag is active per instance (structurally: `Cred` is a sum type with
exactly seven constructors and `tagIdx` is total). -/
theorem credential_model_seven_single_bit_variants :
    (∀ c : Cred, credtype c = 2 ^ (tagIdx c).val) ∧
    (∀ c d : Cred, credtype c = credtype d ↔ tagIdx c = tagIdx d) ∧
    (∀ S : Finset (Fin 7), ∃ mask, mask < 128 ∧
      ∀ c : Cred, (credtype c &&& mask = credtype c ↔ tagIdx c ∈ S)) := by
  refine ⟨credtype_eq_pow, ?_, ?_⟩
  · intro c d
    rw [credtype_eq_pow, credtype_eq_pow]
    exact ⟨pow_inj_fin7 _ _, fun h => by rw [h]⟩
  · intro S
    exact ⟨maskOf S, maskOf_lt S, fun c => by rw [credtype_eq_pow]; exact maskOf_bits S (tagIdx c)⟩

/-- C8: the host-key certificate variant carries a capability bitmask, an
MD5 digest of exactly 16 bytes, a SHA-1 digest of exactly 20 bytes, a
SHA-256 digest of exactly 32 bytes, a raw-key type tag and raw key bytes
with a length; all four representations may be simultaneously populated;
and the core hands the certificate to the validator unmodified — the
connection outcome depends only on the validator's own decision on the
presented certificate, the core selects no preferred hash itself. -/
theorem hostkey_cert_digests_and_passthrough :
    (∀ h : HostkeyCert, h.hash_md5.val.length = 16 ∧ h.hash_sha1.val.length = 20 ∧
      h.hash_sha256.val.length = 32) ∧
    (∃ h : HostkeyCert,
      h.htype &&& GIT_CERT_SSH_MD5 = GIT_CERT_SSH_MD5 ∧
      h.htype &&& GIT_CERT_SSH_SHA1 = GIT_CERT_SSH_SHA1 ∧
      h.htype &&& GIT_CERT_SSH_SHA256 = GIT_CERT_SSH_SHA256 ∧
      h.htype &&& GIT_CERT_SSH_RAW = GIT_CERT_SSH_RAW) ∧
    (∀ cert v w acquire auth mask, v cert = w cert →
      connect cert v acquire auth mask = connect cert w acquire auth mask) := by
  refine ⟨fun h => ⟨h.hash_md5.2, h.hash_sha1.2, h.hash_sha256.2⟩, ?_, ?_⟩
  · refine ⟨⟨15, ⟨List.replicate 16 0, by simp⟩, ⟨List.replicate 20 0, by simp⟩,
      ⟨List.replicate 32 0, by simp⟩, .rsa, [], 0⟩, ?_, ?_, ?_, ?_⟩ <;> decide
  · intro cert v w acquire auth mask h
    simp only [connect, h]

/-- Witness for the pass-through part of the host-key theorem: two
validators that differ on host-key certificates but agree on a given
X.509 certificate make the connection behave identically on it. -/
theorem hostkey_cert_digests_and_passthrough_witness :
    connect (Cert.x509 ⟨[], 0⟩) (fun _ => CertDecision.accept)
        (fun _ => ((1 : Int), Cred.defaultCred)) (fun _ => true) 0 =
      connect (Cert.x509 ⟨[], 0⟩)
        (fun c => match c with | Cert.x509 _ => CertDecision.accept | _ => CertDecision.reject)
        (fun _ => ((1 : Int), Cred.defaultCred)) (fun _ => true) 0 :=
  hostkey_cert_digests_and_passthrough.2.2 _ _ _ _ _ _ rfl

/-- C6 counterexample: the empty-string username.  The constructor
accepts an empty (but non-NULL) username, and `git_cred_has_username`,
per its documented contract, reports 1 for it even though the credential
does not carry a non-empty username — so "returns true exactly when the
credential carries a non-empty username" fails. -/
theorem has_username_empty_string_counterexample :
    git_cred_userpass_plaintext_new true (some "") (some "") =
      (0, some (Cred.userpassPlaintext (some "") (some ""))) ∧
    git_cred_has_username (Cred.userpassPlaintext (some "") (some "")) = 1 ∧
    ¬ carriesNonEmptyUsername (Cred.userpassPlaintext (some "") (some "")) := by
  refine ⟨by decide, by decide, ?_⟩
  rintro ⟨s, hs, hne⟩
  simp only [usernameOf, Option.some.injEq] at hs
  exact hne hs.symm

/-- C6 (amended): `git_cred_has_username` returns 1 exactly when the
credential carries a present (non-NULL) username, and 0 otherwise — in
particular 0 for the default/negotiate variant, which carries no username
field at all. -/
theorem has_username_reports_present_username :
    (∀ c : Cred, (git_cred_has_username c = 1 ↔ (usernameOf c).isSome = true) ∧
      (git_cred_has_username c = 0 ↔ usernameOf c = none)) ∧
    git_cred_has_username Cred.defaultCred = 0 := by
  refine ⟨fun c => ?_, by decide⟩
  cases hc : usernameOf c <;> simp [git_cred_has_username, hc]

/-- The error discipline of one constructor call: result code 0 exactly
when allocation succeeded and the semantically mandatory strings are
present; on success the out parameter holds the new credential; any
failure is a strictly negative code with an empty out parameter and is
caused by an allocation failure or a missing mandatory string — never by
deeper content validation. -/
def ctorOk (r : Int × Option Cred) (c : Cred) (alloc : Bool) (P : Prop) : Prop :=
  (r.1 = 0 ↔ (alloc = true ∧ P)) ∧
  (r.1 = 0 → r.2 = some c) ∧
  (r.1 ≠ 0 → r.1 < 0 ∧ r.2 = none ∧ (alloc = false ∨ ¬ P))

theorem ctorOk_ctorResult (alloc : Bool) (P : Prop) [Decidable P] (c : Cred) :
    ctorOk (ctorResult alloc P c) c alloc P := by
  unfold ctorOk ctorResult
  by_cases hP : P <;> cases alloc <;> simp [hP]

/-- C9: every credential constructor returns 0 with the new credential in
the out parameter exactly when duplication succeeded and the mandatory
strings are present; it fails only with a negative code caused by an
allocation failure or a missing mandatory string, never by deeper content
validation of the supplied material. -/
theorem cred_ctors_fail_only_alloc_or_presence :
    (∀ alloc u p, ctorOk (git_cred_userpass_plaintext_new alloc u p)
      (.userpassPlaintext u p) alloc (u.isSome ∧ p.isSome)) ∧
    (∀ alloc u pub priv pass, ctorOk (git_cred_ssh_key_new alloc u pub priv pass)
      (.sshKey u pub priv pass) alloc (u.isSome ∧ priv.isSome)) ∧
    (∀ alloc u pub priv pass, ctorOk (git_cred_ssh_key_memory_new alloc u pub priv pass)
      (.sshMemory u pub priv pass) alloc (u.isSome ∧ priv.isSome)) ∧
    (∀ alloc u cb pl, ctorOk (git_cred_ssh_interactive_new alloc u cb pl)
      (.sshInteractive u cb pl) alloc (u.isSome = true)) ∧
    (∀ alloc u pub len cb pl, ctorOk (git_cred_ssh_custom_new alloc u pub len cb pl)
      (.sshCustom u pub len cb pl) alloc (u.isSome ∧ pub.isSome)) ∧
    (∀ alloc, ctorOk (git_cred_default_new alloc) .defaultCred alloc True) ∧
    (∀ alloc s, ctorOk (git_cred_username_new alloc (some s)) (.usernameOnly s) alloc True) ∧
    (∀ alloc, git_cred_username_new alloc none = (-1, none)) :=
  ⟨fun alloc _ _ => ctorOk_ctorResult alloc _ _,
   fun alloc _ _ _ _ => ctorOk_ctorResult alloc _ _,
   fun alloc _ _ _ _ => ctorOk_ctorResult alloc _ _,
   fun alloc _ _ _ => ctorOk_ctorResult alloc _ _,
   fun alloc _ _ _ _ _ => ctorOk_ctorResult alloc _ _,
   fun alloc => ctorOk_ctorResult alloc _ _,
   fun alloc _ => ctorOk_ctorResult alloc _ _,
   fun _ => rfl⟩

/-- Witness for the constructor error discipline: a concrete successful
construction and a concrete allocation failure. -/
theorem cred_ctors_fail_only_alloc_or_presence_witness :
    git_cred_userpass_plaintext_new true (some "u") (some "p") =
      (0, some (Cred.userpassPlaintext (some "u") (some "p"))) ∧
    (git_cred_userpass_plaintext_new false (some "u") (some "p")).1 < 0 := by
  have h := cred_ctors_fail_only_alloc_or_presence.1 true (some "u") (some "p")
  have h0 : (git_cred_userpass_plaintext_new true (some "u") (some "p")).1 = 0 :=
    h.1.mpr ⟨rfl, by decide⟩
  have h2 := h.2.1 h0
  have hf := cred_ctors_fail_only_alloc_or_presence.1 false (some "u") (some "p")
  have hne : (git_cred_userpass_plaintext_new false (some "u") (some "p")).1 ≠ 0 := by
    intro hc
    exact absurd (hf.1.mp hc).1 (by decide)
  exact ⟨Prod.ext h0 h2, (hf.2.2 hne).1⟩

/-- C5: every heap-level constructor tags the credential with its variant
and duplicates every caller-supplied buffer into a fresh buffer: the
struct block is fresh, the field buffers are exactly the fresh addresses
following it, each field buffer holds a copy of the corresponding input,
construction leaves every pre-existing buffer unchanged, and overwriting
any pre-existing buffer (mutating or freeing a caller input) afterwards
leaves every field's contents unchanged.  The seven constructors are
instances of `mk_credH` at their respective tags (the username-only
variant, whose inline layout differs, is covered separately). -/
theorem ctors_duplicate_and_do_not_alias :
    (∀ tag m inputs, (∀ a ∈ inputs, a < m.next) →
      (mk_credH tag m inputs).2.credtype = tag ∧
      (mk_credH tag m inputs).2.base = m.next ∧
      (mk_credH tag m inputs).2.fields = List.range' (m.next + 1) inputs.length ∧
      (∀ x, x < m.next + 1 → (mk_credH tag m inputs).1.store x = m.store x) ∧
      (∀ i, (hi : i < inputs.length) →
        (mk_credH tag m inputs).1.store (m.next + 1 + i) = m.store (inputs.get ⟨i, hi⟩) ∧
        (∀ a, a < m.next → ∀ v,
          updStore (mk_credH tag m inputs).1.store a v (m.next + 1 + i) =
            m.store (inputs.get ⟨i, hi⟩)))) ∧
    (∀ m u p, (userpass_newH m u p).2.credtype = GIT_CREDTYPE_USERPASS_PLAINTEXT) ∧
    (∀ m u pub priv pass, (ssh_key_newH m u pub priv pass).2.credtype = GIT_CREDTYPE_SSH_KEY) ∧
    (∀ m u pub priv pass,
      (ssh_key_memory_newH m u pub priv pass).2.credtype = GIT_CREDTYPE_SSH_MEMORY) ∧
    (∀ m u, (ssh_interactive_newH m u).2.credtype = GIT_CREDTYPE_SSH_INTERACTIVE) ∧
    (∀ m u pub, (ssh_custom_newH m u pub).2.credtype = GIT_CREDTYPE_SSH_CUSTOM) ∧
    (∀ m, (default_newH m).2.credtype = GIT_CREDTYPE_DEFAULT) ∧
    (∀ m u, (username_newH m u).2.credtype = GIT_CREDTYPE_USERNAME ∧
      (username_newH m u).1.store (username_newH m u).2.base = m.store u ∧
      (∀ a, a < m.next → ∀ v,
        updStore (username_newH m u).1.store a v (username_newH m u).2.base = m.store u)) := by
  refine ⟨?_, fun _ _ _ => rfl, fun _ _ _ _ _ => rfl, fun _ _ _ _ _ => rfl,
    fun _ _ => rfl, fun _ _ _ => rfl, fun _ => rfl, ?_⟩
  · intro tag m inputs hin
    refine ⟨rfl, rfl, rfl, ?_, ?_⟩
    · intro x hx
      simp only [mk_credH]
      rw [dif_neg]
      omega
    · intro i hi
      have hstore : (mk_credH tag m inputs).1.store (m.next + 1 + i) =
          m.store (inputs.get ⟨i, hi⟩) := by
        simp only [mk_credH]
        rw [dif_pos (by omega)]
        simp only [Nat.add_sub_cancel_left]
      refine ⟨hstore, ?_⟩
      intro a ha v
      rw [updStore, if_neg (by omega)]
      exact hstore
  · intro m u
    have hstore : (username_newH m u).1.store (username_newH m u).2.base = m.store u := by
      simp [username_newH, updStore]
    refine ⟨rfl, hstore, ?_⟩
    intro a ha v
    rw [updStore]
    simp only [username_newH]
    rw [if_neg (by omega)]
    exact hstore

/-- Witness for the duplication theorem: a concrete construction whose
credential survives an overwrite of the caller's input buffer. -/
theorem ctors_duplicate_and_do_not_alias_witness :
    updStore (userpass_newH ⟨fun _ => "secret", 2⟩ 0 1).1.store 0 "wiped"
      ((⟨fun _ => "secret", 2⟩ : Mem).next + 1 + 0) = "secret" := by
  have h := (ctors_duplicate_and_do_not_alias.1 GIT_CREDTYPE_USERPASS_PLAINTEXT
    ⟨fun _ => "secret", 2⟩ [0, 1] (by intro a ha; fin_cases ha <;> decide)).2.2.2.2
  exact (h 0 (by decide)).2 0 (by decide) "wiped"

/-- C10: the username-only constructor stores the username inline in the
credential struct's own single allocation: exactly one block is
allocated, the single field buffer IS the struct block, releasing the
credential frees exactly one distinct block, and the constructed
credential always carries its username (a copy of the input, immune to
later overwrites of pre-existing buffers). -/
theorem username_cred_inline_single_allocation :
    ∀ m u,
      (username_newH m u).2.credtype = GIT_CREDTYPE_USERNAME ∧
      (username_newH m u).2.fields = [(username_newH m u).2.base] ∧
      (freedBlocks (username_newH m u).2).card = 1 ∧
      (username_newH m u).1.next = m.next + 1 ∧
      (username_newH m u).2.fields ≠ [] ∧
      (username_newH m u).1.store (username_newH m u).2.base = m.store u ∧
      (∀ a, a < m.next → ∀ v,
        updStore (username_newH m u).1.store a v (username_newH m u).2.base = m.store u) := by
  intro m u
  have hstore : (username_newH m u).1.store (username_newH m u).2.base = m.store u := by
    simp [username_newH, updStore]
  refine ⟨rfl, rfl, by simp [freedBlocks, username_newH], rfl, by simp [username_newH],
    hstore, ?_⟩
  intro a ha v
  rw [updStore]
  simp only [username_newH]
  rw [if_neg (by omega)]
  exact hstore

/-- Witness for the inline username-only credential: a concrete
construction whose username survives an overwrite of the input buffer. -/
theorem username_cred_inline_single_allocation_witness :
    updStore (username_newH ⟨fun _ => "alice", 3⟩ 1).1.store 1 "gone"
      (username_newH ⟨fun _ => "alice", 3⟩ 1).2.base = "alice" :=
  (username_cred_inline_single_allocation ⟨fun _ => "alice", 3⟩ 1).2.2.2.2.2.2
    1 (by decide) "gone"

theorem negotiate_empty_mask (acquire : Nat → Int × Cred) (auth : Cred → Bool) :
    negotiate acquire auth 0 = (.declined, []) := by
  rw [negotiate]
  simp

theorem negotiate_fatal (acquire : Nat → Int × Cred) (auth : Cred → Bool) (mask : Nat)
    (hm : mask ≠ 0) (h : (acquire mask).1 < 0) :
    negotiate acquire auth mask = (.failed (acquire mask).1, [.acquireCall mask]) := by
  rw [negotiate]
  simp only [dif_neg hm, if_pos h]

theorem negotiate_declined (acquire : Nat → Int × Cred) (auth : Cred → Bool) (mask : Nat)
    (hm : mask ≠ 0) (h : 0 < (acquire mask).1) :
    negotiate acquire auth mask = (.declined, [.acquireCall mask]) := by
  rw [negotiate]
  simp only [dif_neg hm, if_neg (by omega : ¬ (acquire mask).1 < 0), if_pos h]

theorem negotiate_violation (acquire : Nat → Int × Cred) (auth : Cred → Bool) (mask : Nat)
    (hm : mask ≠ 0) (h0 : (acquire mask).1 = 0)
    (hbit : ¬ credtype (acquire mask).2 &&& mask = credtype (acquire mask).2) :
    negotiate acquire auth mask = (.contractViolation, [.acquireCall mask]) := by
  rw [negotiate]
  simp only [dif_neg hm, if_neg (by omega : ¬ (acquire mask).1 < 0),
    if_neg (by omega : ¬ 0 < (acquire mask).1), if_neg hbit]

theorem negotiate_auth_ok (acquire : Nat → Int × Cred) (auth : Cred → Bool) (mask : Nat)
    (hm : mask ≠ 0) (h0 : (acquire mask).1 = 0)
    (hbit : credtype (acquire mask).2 &&& mask = credtype (acquire mask).2)
    (hauth : auth (acquire mask).2 = true) :
    negotiate acquire auth mask =
      (.authenticated (acquire mask).2, [.acquireCall mask, .authAttempt (acquire mask).2]) := by
  rw [negotiate]
  simp only [dif_neg hm, if_neg (by omega : ¬ (acquire mask).1 < 0),
    if_neg (by omega : ¬ 0 < (acquire mask).1), if_pos hbit, if_pos hauth]

theorem negotiate_retry (acquire : Nat → Int × Cred) (auth : Cred → Bool) (mask : Nat)
    (hm : mask ≠ 0) (h0 : (acquire mask).1 = 0)
    (hbit : credtype (acquire mask).2 &&& mask = credtype (acquire mask).2)
    (hauth : auth (acquire mask).2 = false) :
    negotiate acquire auth mask =
      ((negotiate acquire auth (mask - credtype (acquire mask).2)).1,
        .acquireCall mask :: .authAttempt (acquire mask).2 ::
          (negotiate acquire auth (mask - credtype (acquire mask).2)).2) := by
  rw [negotiate]
  simp only [dif_neg hm, if_neg (by omega : ¬ (acquire mask).1 < 0),
    if_neg (by omega : ¬ 0 < (acquire mask).1), if_pos hbit, hauth, if_neg Bool.false_ne_true]

theorem popcount7_le_seven : ∀ m, m < 128 → popcount7 m ≤ 7 := by decide

theorem popcount7_pos : ∀ m, m < 128 → m ≠ 0 → 1 ≤ popcount7 m := by decide

theorem popcount7_sub_lt : ∀ m, m < 128 → ∀ k, k < 7 → 2 ^ k &&& m = 2 ^ k →
    popcount7 (m - 2 ^ k) < popcount7 m := by decide

theorem submask_sub : ∀ m, m < 128 → ∀ k, k < 7 → 2 ^ k &&& m = 2 ^ k →
    (m - 2 ^ k) &&& m = m - 2 ^ k ∧ m - 2 ^ k < m := by decide

theorem negotiate_no_validate (acquire : Nat → Int × Cred) (auth : Cred → Bool) :
    ∀ mask, (negotiate acquire auth mask).2.countP isValidate = 0 := by
  intro mask
  induction mask using Nat.strong_induction_on with
  | _ mask ih =>
    by_cases hm : mask = 0
    · subst hm
      rw [negotiate_empty_mask]
      rfl
    · rcases lt_trichotomy (acquire mask).1 0 with hneg | h0 | hpos
      · rw [negotiate_fatal acquire auth mask hm hneg]
        simp [List.countP_cons, isValidate]
      · by_cases hbit : credtype (acquire mask).2 &&& mask = credtype (acquire mask).2
        · cases hauth : auth (acquire mask).2 with
          | true =>
            rw [negotiate_auth_ok acquire auth mask hm h0 hbit hauth]
            simp [List.countP_cons, isValidate]
          | false =>
            rw [negotiate_retry acquire auth mask hm h0 hbit hauth]
            simp only [List.countP_cons, isValidate, cond_false]
            have := ih (mask - credtype (acquire mask).2)
              (Nat.sub_lt (Nat.pos_of_ne_zero hm) (credtype_pos _))
            simp [this, isValidate]
        · rw [negotiate_violation acquire auth mask hm h0 hbit]
          simp [List.countP_cons, isValidate]
      · rw [negotiate_declined acquire auth mask hm hpos]
        simp [List.countP_cons, isValidate]

theorem traceMasks_nil : traceMasks [] = [] := rfl

theorem traceMasks_one (m : Nat) : traceMasks [.acquireCall m] = [m] := rfl

theorem traceMasks_retry (m : Nat) (c : Cred) (t : List Event) :
    traceMasks (.acquireCall m :: .authAttempt c :: t) = m :: traceMasks t := rfl

theorem negotiate_rounds_le_popcount7 (acquire : Nat → Int × Cred) (auth : Cred → Bool) :
    ∀ mask, mask < 128 →
      (traceMasks (negotiate acquire auth mask).2).length ≤ popcount7 mask := by
  intro mask
  induction mask using Nat.strong_induction_on with
  | _ mask ih =>
    intro hlt
    by_cases hm : mask = 0
    · subst hm
      rw [negotiate_empty_mask]
      exact Nat.zero_le _
    · have hone : 1 ≤ popcount7 mask := popcount7_pos mask hlt hm
      rcases lt_trichotomy (acquire mask).1 0 with hneg | h0 | hpos
      · rw [negotiate_fatal acquire auth mask hm hneg, traceMasks_one]
        exact hone
      · by_cases hbit : credtype (acquire mask).2 &&& mask = credtype (acquire mask).2
        · cases hauth : auth (acquire mask).2 with
          | true =>
            rw [negotiate_auth_ok acquire auth mask hm h0 hbit hauth]
            exact hone
          | false =>
            rw [negotiate_retry acquire auth mask hm h0 hbit hauth, traceMasks_retry,
              List.length_cons]
            have hk : credtype (acquire mask).2 = 2 ^ (tagIdx (acquire mask).2).val :=
              credtype_eq_pow _
            have hk7 : (tagIdx (acquire mask).2).val < 7 := (tagIdx (acquire mask).2).isLt
            have hpc : popcount7 (mask - credtype (acquire mask).2) < popcount7 mask := by
              rw [hk]
              exact popcount7_sub_lt mask hlt _ hk7 (hk ▸ hbit)
            have hrec := ih (mask - credtype (acquire mask).2)
              (Nat.sub_lt (Nat.pos_of_ne_zero hm) (credtype_pos _))
              (lt_of_le_of_lt (Nat.sub_le _ _) hlt)
            omega
        · rw [negotiate_violation acquire auth mask hm h0 hbit, traceMasks_one]
          exact hone
      · rw [negotiate_declined acquire auth mask hm hpos, traceMasks_one]
        exact hone

theorem negotiate_masks_chain (acquire : Nat → Int × Cred) (auth : Cred → Bool) :
    ∀ mask, mask < 128 →
      traceMasks (negotiate acquire auth mask).2 = [] ∨
      ∃ t, traceMasks (negotiate acquire auth mask).2 = mask :: t ∧
        List.Chain' (fun a b => b &&& a = b ∧ b < a) (mask :: t) := by
  intro mask
  induction mask using Nat.strong_induction_on with
  | _ mask ih =>
    intro hlt
    by_cases hm : mask = 0
    · subst hm
      rw [negotiate_empty_mask]
      exact Or.inl rfl
    · rcases lt_trichotomy (acquire mask).1 0 with hneg | h0 | hpos
      · rw [negotiate_fatal acquire auth mask hm hneg, traceMasks_one]
        exact Or.inr ⟨[], rfl, List.chain'_singleton mask⟩
      · by_cases hbit : credtype (acquire mask).2 &&& mask = credtype (acquire mask).2
        · cases hauth : auth (acquire mask).2 with
          | true =>
            rw [negotiate_auth_ok acquire auth mask hm h0 hbit hauth]
            exact Or.inr ⟨[], rfl, List.chain'_singleton mask⟩
          | false =>
            rw [negotiate_retry acquire auth mask hm h0 hbit hauth, traceMasks_retry]
            have hk : credtype (acquire mask).2 = 2 ^ (tagIdx (acquire mask).2).val :=
              credtype_eq_pow _
            have hk7 : (tagIdx (acquire mask).2).val < 7 := (tagIdx (acquire mask).2).isLt
            have hsub := submask_sub mask hlt _ hk7 (hk ▸ hbit)
            rw [← hk] at hsub
            rcases ih (mask - credtype (acquire mask).2)
                (Nat.sub_lt (Nat.pos_of_ne_zero hm) (credtype_pos _))
                (lt_of_le_of_lt (Nat.sub_le _ _) hlt) with hnil | ⟨t, ht, hc⟩
            · rw [hnil]
              exact Or.inr ⟨[], rfl, List.chain'_singleton mask⟩
            · rw [ht]
              exact Or.inr ⟨(mask - credtype (acquire mask).2) :: t, rfl,
                List.chain'_cons.mpr ⟨hsub, hc⟩⟩
        · rw [negotiate_violation acquire auth mask hm h0 hbit, traceMasks_one]
          exact Or.inr ⟨[], rfl, List.chain'_singleton mask⟩
      · rw [negotiate_declined acquire auth mask hm hpos, traceMasks_one]
        exact Or.inr ⟨[], rfl, List.chain'_singleton mask⟩

/-- C2: the integer result of an acquisition call is interpreted by the
trichotomy of `git_cred_acquire_cb`: a negative result aborts the whole
negotiation as a fatal error after exactly that one acquisition call,
with no further acquisition and no credential transmitted; a strictly
positive result is declined — non-fatal, never retried by the core, again
exactly one call and nothing transmitted; result 0 is success — the
credential in the out slot is taken up and (when in-mask and accepted by
the transport) authenticates the connection. -/
theorem acquire_result_trichotomy :
    ∀ (acquire : Nat → Int × Cred) (auth : Cred → Bool) (mask : Nat), mask ≠ 0 →
      ((acquire mask).1 < 0 →
        negotiate acquire auth mask = (.failed (acquire mask).1, [.acquireCall mask])) ∧
      (0 < (acquire mask).1 →
        negotiate acquire auth mask = (.declined, [.acquireCall mask])) ∧
      ((acquire mask).1 = 0 →
        credtype (acquire mask).2 &&& mask = credtype (acquire mask).2 →
        auth (acquire mask).2 = true →
        negotiate acquire auth mask =
          (.authenticated (acquire mask).2,
            [.acquireCall mask, .authAttempt (acquire mask).2])) :=
  fun acquire auth mask hm =>
    ⟨negotiate_fatal acquire auth mask hm,
     negotiate_declined acquire auth mask hm,
     fun h0 hbit hauth => negotiate_auth_ok acquire auth mask hm h0 hbit hauth⟩

/-- Witness for the result trichotomy at concrete callbacks: a fatal
acquisition aborts after one call, a declining one stops after one call,
and a successful in-mask one authenticates. -/
theorem acquire_result_trichotomy_witness :
    negotiate (fun _ => ((-3 : Int), Cred.defaultCred)) (fun _ => true) 127 =
      (.failed (-3), [.acquireCall 127]) ∧
    negotiate (fun _ => ((2 : Int), Cred.defaultCred)) (fun _ => true) 127 =
      (.declined, [.acquireCall 127]) ∧
    negotiate (fun _ => ((0 : Int), Cred.defaultCred)) (fun _ => true) 127 =
      (.authenticated Cred.defaultCred,
        [.acquireCall 127, .authAttempt Cred.defaultCred]) :=
  ⟨(acquire_result_trichotomy (fun _ => ((-3 : Int), Cred.defaultCred)) (fun _ => true) 127
      (by decide)).1 (by decide),
   (acquire_result_trichotomy (fun _ => ((2 : Int), Cred.defaultCred)) (fun _ => true) 127
      (by decide)).2.1 (by decide),
   (acquire_result_trichotomy (fun _ => ((0 : Int), Cred.defaultCred)) (fun _ => true) 127
      (by decide)).2.2 (by decide) (by decide) (by decide)⟩

/-- C3: a credential returned with code 0 whose variant bit is not
contained in the bitmask the acquisition call was given is rejected as a
fatal contract violation: the outcome is `contractViolation` (never
`authenticated`, so never silently coerced or accepted) and the trace is
that single acquisition call (never retried, nothing transmitted). -/
theorem out_of_mask_credential_rejected :
    ∀ (acquire : Nat → Int × Cred) (auth : Cred → Bool) (mask : Nat), mask ≠ 0 →
      (acquire mask).1 = 0 →
      ¬ credtype (acquire mask).2 &&& mask = credtype (acquire mask).2 →
      negotiate acquire auth mask = (.contractViolation, [.acquireCall mask]) :=
  fun acquire auth mask hm h0 hbit => negotiate_violation acquire auth mask hm h0 hbit

/-- Witness for the contract violation: a callback that returns a
default/negotiate credential (bit 8) against a bitmask allowing only
plaintext userpass (bit 1). -/
theorem out_of_mask_credential_rejected_witness :
    negotiate (fun _ => ((0 : Int), Cred.defaultCred)) (fun _ => true) 1 =
      (.contractViolation, [.acquireCall 1]) :=
  out_of_mask_credential_rejected (fun _ => ((0 : Int), Cred.defaultCred)) (fun _ => true) 1
    (by decide) (by decide) (by decide)

/-- C4: the negotiation terminates — for any bitmask over the seven
credential-type bits, the number of acquisition rounds is at most seven,
and every retry is made with a strictly narrower bitmask: the successive
masks passed to the acquisition function form a chain in which each mask
is a strict sub-bitmask of the previous one. -/
theorem negotiation_bounded_by_seven_rounds :
    ∀ (acquire : Nat → Int × Cred) (auth : Cred → Bool) (mask : Nat), mask < 128 →
      (traceMasks (negotiate acquire auth mask).2).length ≤ 7 ∧
      List.Chain' (fun a b => b &&& a = b ∧ b < a)
        (traceMasks (negotiate acquire auth mask).2) := by
  intro acquire auth mask hlt
  refine ⟨le_trans (negotiate_rounds_le_popcount7 acquire auth mask hlt)
    (popcount7_le_seven mask hlt), ?_⟩
  rcases negotiate_masks_chain acquire auth mask hlt with hnil | ⟨t, ht, hc⟩
  · rw [hnil]
    exact List.chain'_nil
  · rw [ht]
    exact hc

/-- Witness for the termination bound: a concrete negotiation from the
full bitmask with a transport that rejects every authentication attempt
performs at most seven acquisition rounds. -/
theorem negotiation_bounded_by_seven_rounds_witness :
    (traceMasks (negotiate (fun _ => ((0 : Int), Cred.defaultCred)) (fun _ => false) 127).2).length
      ≤ 7 :=
  (negotiation_bounded_by_seven_rounds (fun _ => ((0 : Int), Cred.defaultCred)) (fun _ => false)
    127 (by decide)).1

/-- C1: in every connection attempt the certificate validation gate runs
exactly once, strictly before any acquisition call and before any
credential transmission (the validation event is the first event of the
trace and never recurs); and if the validation callback rejects, the
acquisition loop is never entered — no acquisition call and no
transmission occur — and the attempt fails with the untrusted-peer
condition. -/
theorem validation_gate_once_before_acquisition :
    ∀ (cert : Cert) (validator : Cert → CertDecision) (acquire : Nat → Int × Cred)
      (auth : Cred → Bool) (mask : Nat),
      (connect cert validator acquire auth mask).2.countP isValidate = 1 ∧
      (∃ t, (connect cert validator acquire auth mask).2 = .validate :: t ∧
        t.countP isValidate = 0) ∧
      (validator cert = .reject →
        (connect cert validator acquire auth mask).1 = .untrustedPeer ∧
        (connect cert validator acquire auth mask).2 = [.validate]) := by
  intro cert validator acquire auth mask
  cases hv : validator cert with
  | reject =>
    refine ⟨?_, ⟨[], ?_, ?_⟩, fun _ => ⟨?_, ?_⟩⟩ <;>
      simp [connect, hv, List.countP_cons, isValidate]
  | error code =>
    refine ⟨?_, ⟨[], ?_, ?_⟩, fun h => by cases h⟩ <;>
      simp [connect, hv, List.countP_cons, isValidate]
  | accept =>
    simp only [connect, hv]
    have hnv := negotiate_no_validate acquire auth mask
    refine ⟨?_, ⟨(negotiate acquire auth mask).2, rfl, hnv⟩, fun h => by cases h⟩
    simp [List.countP_cons, isValidate, hnv]

/-- Witness for the validation gate: a concrete rejecting validator fails
the attempt with the untrusted-peer condition and an empty negotiation. -/
theorem validation_gate_once_before_acquisition_witness :
    (connect (Cert.x509 ⟨[], 0⟩) (fun _ => CertDecision.reject)
        (fun _ => ((0 : Int), Cred.defaultCred)) (fun _ => true) 127).1 =
      ConnResult.untrustedPeer ∧
    (connect (Cert.x509 ⟨[], 0⟩) (fun _ => CertDecision.reject)
        (fun _ => ((0 : Int), Cred.defaultCred)) (fun _ => true) 127).2 = [.validate] :=
  (validation_gate_once_before_acquisition (Cert.x509 ⟨[], 0⟩) (fun _ => CertDecision.reject)
    (fun _ => ((0 : Int), Cred.defaultCred)) (fun _ => true) 127).2.2 rfl

end GitTransport
